import Mathlib

/-!
Verification development for the WCAG color palette generator
(core modules: ColorUtil, ColorHarmonies, PaletteGenerator).

The JavaScript source is embedded shallowly:
* colors carry exact rational hex/RGB/HSL data (`Rgb`, `Hsl`, `ColorUtil`);
* WCAG relative luminance and contrast use real arithmetic with the
  exact exponent 2.4 (`Real.rpow`), the mathematical function the
  floating-point source approximates;
* JavaScript exceptions (`TypeError` from dereferencing null/undefined)
  are modelled with `Except JsError`;
* in-place array mutation across the differentiation stages is modelled
  by threading the list through folds in source order.
-/

set_option maxRecDepth 8000
set_option maxHeartbeats 1600000

/-- JavaScript runtime errors that the embedded code can raise. -/
inductive JsError
  | typeError
deriving DecidableEq

/-- Truncation toward zero, as JavaScript coerces in the `%` operator. -/
def jsTrunc (x : ℚ) : ℤ :=
  if 0 ≤ x then ⌊x⌋ else ⌈x⌉

/-- JavaScript remainder operator `a % b` on numbers (sign follows `a`). -/
def jsMod (a b : ℚ) : ℚ :=
  a - b * (jsTrunc (a / b) : ℚ)

/-- JavaScript `Math.round` for the nonnegative channel values used here. -/
def jsRound (x : ℚ) : ℤ :=
  ⌊x + 1/2⌋

/-- JavaScript `arr[i] || d`: the element when present and non-zero, else `d`. -/
def jsIndexOr (l : List ℚ) (i : ℕ) (d : ℚ) : ℚ :=
  match l.get? i with
  | some v => if v = 0 then d else v
  | none => d

/-- JavaScript `v || d` for the numeric settings fields (`0` is falsy). -/
def jsOr (v d : ℚ) : ℚ :=
  if v = 0 then d else v

/-- Indexed map, modelling `Array.prototype.map((x, i) => ...)`. -/
def jsMapIdxGo {α β : Type} (f : ℕ → α → β) : ℕ → List α → List β
  | _, [] => []
  | i, a :: as => f i a :: jsMapIdxGo f (i + 1) as

/-- Indexed map starting at index 0. -/
def jsMapIdx {α β : Type} (f : ℕ → α → β) (l : List α) : List β :=
  jsMapIdxGo f 0 l

/-- Effectful map over indices, modelling a `for` loop whose body can throw. -/
def mapME {α : Type} (f : ℕ → Except JsError α) : List ℕ → Except JsError (List α)
  | [] => .ok []
  | i :: is =>
    match f i with
    | .error e => .error e
    | .ok c =>
      match mapME f is with
      | .error e => .error e
      | .ok cs => .ok (c :: cs)

/-- RGB triple; channels live in [0,255] for real colors and may be
fractional before rounding for display, exactly as in the source. -/
structure Rgb where
  r : ℚ
  g : ℚ
  b : ℚ
deriving DecidableEq

/-- HSL triple with h in degrees, s and l in percent. -/
structure Hsl where
  h : ℚ
  s : ℚ
  l : ℚ
deriving DecidableEq

/-- Fully initialised color value object (class `ColorUtil`). -/
structure ColorUtil where
  hex : String
  rgb : Rgb
  hsl : Hsl
deriving DecidableEq

instance exceptDecEq {ε α : Type} [DecidableEq ε] [DecidableEq α] :
    DecidableEq (Except ε α) := fun a b =>
  match a, b with
  | .error e, .error f =>
    match decEq e f with
    | isTrue h => isTrue (congrArg Except.error h)
    | isFalse h => isFalse (fun hh => h (Except.error.inj hh))
  | .error _, .ok _ => isFalse (fun hh => Except.noConfusion hh)
  | .ok _, .error _ => isFalse (fun hh => Except.noConfusion hh)
  | .ok x, .ok y =>
    match decEq x y with
    | isTrue h => isTrue (congrArg Except.ok h)
    | isFalse h => isFalse (fun hh => h (Except.ok.inj hh))

/-- Stand-in for a JavaScript `undefined` color read out of bounds. -/
def junkColor : ColorUtil :=
  { hex := "", rgb := ⟨0, 0, 0⟩, hsl := ⟨0, 0, 0⟩ }

/-- Value of one hex digit, case-insensitive (regex class `[a-f\d]` with `i`). -/
def hexDigitVal (c : Char) : Option ℕ :=
  if '0' ≤ c ∧ c ≤ '9' then some (c.toNat - '0'.toNat)
  else if 'a' ≤ c ∧ c ≤ 'f' then some (c.toNat - 'a'.toNat + 10)
  else if 'A' ≤ c ∧ c ≤ 'F' then some (c.toNat - 'A'.toNat + 10)
  else none

/-- JavaScript `color.startsWith('#')`. -/
def jsStartsWithHash (s : String) : Bool :=
  match s.data with
  | [] => false
  | c :: _ => c = '#'

/-- ColorUtil.hexToRgb: matches `^#?([a-f\d]{2})([a-f\d]{2})([a-f\d]{2})$`
case-insensitively and decodes the three byte pairs; `null` is `none`. -/
def hexToRgb (hex : String) : Option Rgb :=
  let chars := if jsStartsWithHash hex then hex.data.drop 1 else hex.data
  match chars with
  | [c1, c2, c3, c4, c5, c6] =>
    match hexDigitVal c1, hexDigitVal c2, hexDigitVal c3,
        hexDigitVal c4, hexDigitVal c5, hexDigitVal c6 with
    | some v1, some v2, some v3, some v4, some v5, some v6 =>
      some ⟨((16 * v1 + v2 : ℕ) : ℚ), ((16 * v3 + v4 : ℕ) : ℚ), ((16 * v5 + v6 : ℕ) : ℚ)⟩
    | _, _, _, _, _, _ => none
  | _ => none

/-- Lower-case hex digit for a value below 16. -/
def hexDigitChar (n : ℕ) : Char :=
  if n < 10 then Char.ofNat ('0'.toNat + n) else Char.ofNat ('a'.toNat + (n - 10))

/-- Two lower-case hex digits of a byte value. -/
def byteToHexStr (n : ℤ) : String :=
  String.mk [hexDigitChar ((n.toNat / 16) % 16), hexDigitChar (n.toNat % 16)]

/-- ColorUtil.rgbToHex: rounds each channel and formats six lower-case hex
digits behind `#` (the source shifts into `1 << 24` and slices; for channels
in [0,255] that equals per-byte formatting). -/
def rgbToHex (r g b : ℚ) : String :=
  "#" ++ byteToHexStr (jsRound r) ++ byteToHexStr (jsRound g) ++ byteToHexStr (jsRound b)

/-- ColorUtil.rgbToHsl, exact rational arithmetic. -/
def rgbToHsl (r0 g0 b0 : ℚ) : Hsl :=
  let r := r0 / 255
  let g := g0 / 255
  let b := b0 / 255
  let mx := max r (max g b)
  let mn := min r (min g b)
  let l := (mx + mn) / 2
  if mx = mn then ⟨0, 0, l * 100⟩
  else
    let d := mx - mn
    let s := if 1/2 < l then d / (2 - mx - mn) else d / (mx + mn)
    let h :=
      if mx = r then (g - b) / d + (if g < b then 6 else 0)
      else if mx = g then (b - r) / d + 2
      else (r - g) / d + 4
    ⟨h / 6 * 360, s * 100, l * 100⟩

/-- Helper `hue2rgb` from ColorUtil.hslToRgb. -/
def hue2rgb (p q t0 : ℚ) : ℚ :=
  let t1 := if t0 < 0 then t0 + 1 else t0
  let t := if 1 < t1 then t1 - 1 else t1
  if t < 1/6 then p + (q - p) * 6 * t
  else if t < 1/2 then q
  else if t < 2/3 then p + (q - p) * (2/3 - t) * 6
  else p

/-- ColorUtil.hslToRgb, exact rational arithmetic. -/
def hslToRgb (h0 s0 l0 : ℚ) : Rgb :=
  let h := h0 / 360
  let s := s0 / 100
  let l := l0 / 100
  if s = 0 then ⟨l * 255, l * 255, l * 255⟩
  else
    let q := if l < 1/2 then l * (1 + s) else l + s - l * s
    let p := 2 * l - q
    ⟨hue2rgb p q (h + 1/3) * 255, hue2rgb p q h * 255, hue2rgb p q (h - 1/3) * 255⟩

/-- ColorUtil.fromHsl: stores the given HSL and derives RGB and hex. -/
def ColorUtil.fromHsl (h s l : ℚ) : ColorUtil :=
  let rgb := hslToRgb h s l
  { hex := rgbToHex rgb.r rgb.g rgb.b, rgb := rgb, hsl := ⟨h, s, l⟩ }

/-- ColorUtil constructor on a string argument.  `.ok none` models the
constructor returning normally while assigning none of the fields (string
without a leading `#`); `.error .typeError` models the `null` dereference
`this.rgb.r` when the hex regex fails. -/
def mkColorUtil (color : String) : Except JsError (Option ColorUtil) :=
  if jsStartsWithHash color then
    match hexToRgb color with
    | some rgb => .ok (some { hex := color, rgb := rgb, hsl := rgbToHsl rgb.r rgb.g rgb.b })
    | none => .error .typeError
  else .ok none

/-- Fallback color `new ColorUtil('#5500AA')` used on parse failure. -/
def defaultBaseColor : ColorUtil :=
  { hex := "#5500AA", rgb := ⟨85, 0, 170⟩, hsl := rgbToHsl 85 0 170 }

/-- Shared reference color `new ColorUtil('#ffffff')`. -/
def whiteColor : ColorUtil :=
  { hex := "#ffffff", rgb := ⟨255, 255, 255⟩, hsl := rgbToHsl 255 255 255 }

/-- Shared reference color `new ColorUtil('#2c3e50')`. -/
def darkBgColor : ColorUtil :=
  { hex := "#2c3e50", rgb := ⟨44, 62, 80⟩, hsl := rgbToHsl 44 62 80 }

/-- The color `new ColorUtil('#000000')`, used as a concrete test input. -/
def blackColor : ColorUtil :=
  { hex := "#000000", rgb := ⟨0, 0, 0⟩, hsl := rgbToHsl 0 0 0 }

/-- sRGB linearisation of one channel already divided by 255
(`c <= 0.03928 ? c/12.92 : ((c+0.055)/1.055)^2.4`). -/
noncomputable def linearizeChannel (c : ℚ) : ℝ :=
  if c ≤ 0.03928 then (c : ℝ) / 12.92
  else (((c : ℝ) + 0.055) / 1.055) ^ (2.4 : ℝ)

/-- ColorUtil.getLuminance: WCAG relative luminance. -/
noncomputable def ColorUtil.getLuminance (c : ColorUtil) : ℝ :=
  0.2126 * linearizeChannel (c.rgb.r / 255)
    + 0.7152 * linearizeChannel (c.rgb.g / 255)
    + 0.0722 * linearizeChannel (c.rgb.b / 255)

/-- ColorUtil.getContrastRatio: `(brightest + 0.05) / (darkest + 0.05)`. -/
noncomputable def ColorUtil.contrastWith (c other : ColorUtil) : ℝ :=
  let lum1 := ColorUtil.getLuminance c
  let lum2 := ColorUtil.getLuminance other
  (max lum1 lum2 + 0.05) / (min lum1 lum2 + 0.05)

/-- The five harmony schemes of `colorHarmonies`. -/
inductive HarmonyType
  | complementary
  | triadic
  | analogous
  | monochromatic
  | tetradic
deriving DecidableEq

/-- Hue lists of `colorHarmonies`, wrapped into [0,360) by `% 360`. -/
def colorHarmonies : HarmonyType → ℚ → List ℚ
  | .complementary, h => [h, jsMod (h + 180) 360]
  | .triadic, h => [h, jsMod (h + 120) 360, jsMod (h + 240) 360]
  | .analogous, h =>
    [h, jsMod (h + 25) 360, jsMod (h + 50) 360, jsMod (h - 25 + 360) 360, jsMod (h - 50 + 360) 360]
  | .monochromatic, h => [h, h, h, h, h]
  | .tetradic, h => [h, jsMod (h + 90) 360, jsMod (h + 180) 360, jsMod (h + 270) 360]

/-- PaletteGenerator.validateSize on an integral size (the UI always hands
the generator an integer, so `parseInt` is the identity here). -/
def validateSize (size : ℤ) : ℤ :=
  if size = 3 ∨ size = 5 then size else 5

/-- PaletteGenerator.generateColorFromHarmony: deterministic saturation and
lightness tables with per-harmony bias and final clamps. -/
def generateColorFromHarmony (baseColor : ColorUtil) (harmonyHues : List ℚ)
    (harmonyType : HarmonyType) (index totalSize : ℕ) : ColorUtil :=
  let hueFromTable : ℚ := harmonyHues.getD (index % harmonyHues.length) 0
  if harmonyType = HarmonyType.monochromatic then
    let hueVariation : ℚ := ((index : ℚ) - 1) * 10
    let hue := jsMod (baseColor.hsl.h + hueVariation) 360
    let saturation := max 30 (min 90 (baseColor.hsl.s + ((index : ℚ) - 2) * 15))
    let lightness :=
      if totalSize = 3 then jsIndexOr [30, 50, 70] (index - 1) 50
      else jsIndexOr [15, 35, 55, 75, 90] (index - 1) 50
    ColorUtil.fromHsl hue (max 20 (min 95 saturation)) (max 10 (min 90 lightness))
  else
    let saturation :=
      if totalSize = 3 then jsIndexOr [75, 60, 85] (index - 1) 70
      else jsIndexOr [75, 60, 85, 50, 80] (index - 1) 70
    let lightness :=
      if totalSize = 3 then jsIndexOr [50, 35, 70] (index - 1) 50
      else jsIndexOr [50, 35, 70, 20, 80] (index - 1) 50
    let adjusted : ℚ × ℚ :=
      if harmonyType = HarmonyType.complementary then
        if index = 1 then (min 85 (saturation + 10), max 20 (lightness - 5))
        else (saturation, lightness)
      else if harmonyType = HarmonyType.analogous then
        (max 50 (saturation - 5), if index = 2 then min 80 (lightness + 10) else lightness)
      else if harmonyType = HarmonyType.tetradic then
        (saturation, if index % 2 = 1 then max 15 (lightness - 10) else min 85 (lightness + 10))
      else (saturation, lightness)
    ColorUtil.fromHsl hueFromTable (max 20 (min 95 adjusted.1)) (max 10 (min 90 adjusted.2))

/-- PaletteGenerator.generateBaseColors.  The try/catch only guards the first
construction; the `color.hsl.h` read and the slot-0 reconstruction of
`baseColor` sit outside it, so they can still throw `TypeError`. -/
def generateBaseColorsE (baseColor : String) (harmonyType : HarmonyType)
    (size : ℕ) : Except JsError (List ColorUtil) :=
  let colorOpt : Option ColorUtil :=
    match mkColorUtil baseColor with
    | .error _ => some defaultBaseColor
    | .ok c => c
  match colorOpt with
  | none => .error .typeError
  | some color =>
    let baseHue := color.hsl.h
    let harmonyHues := colorHarmonies harmonyType baseHue
    mapME (fun i =>
        if i = 0 then
          match mkColorUtil baseColor with
          | .error e => .error e
          | .ok (some c) => .ok c
          | .ok none => .error .typeError
          -- last branch unreachable: a string without '#' already failed the
          -- `color.hsl.h` dereference before the loop
        else .ok (generateColorFromHarmony color harmonyHues harmonyType i size))
      (List.range size)

/-- PaletteGenerator.getTargetLightnessRange. -/
def getTargetLightnessRange (isLightBackground : Bool) (colorIndex totalColors : ℕ)
    (harmonyType : HarmonyType) : ℚ × ℚ :=
  if isLightBackground then
    if harmonyType = HarmonyType.monochromatic then
      if totalColors = 3 then (10 + (colorIndex : ℚ) * 20, 10 + (colorIndex : ℚ) * 20 + 15)
      else (10 + (colorIndex : ℚ) * 15, 10 + (colorIndex : ℚ) * 15 + 15)
    else
      [((15 : ℚ), (35 : ℚ)), (25, 45), (35, 55), (20, 40), (10, 30)].getD (colorIndex % 5) (0, 0)
  else
    if totalColors = 3 then
      [((70 : ℚ), (95 : ℚ)), (60, 80), (75, 90)].getD (colorIndex % 3) (0, 0)
    else
      [((70 : ℚ), (90 : ℚ)), (60, 80), (50, 70), (65, 85), (75, 95)].getD (colorIndex % 5) (0, 0)

/-- Lightness values visited by `for (let l = lo; l <= hi; l += 2)`. -/
def scanLightnessValues (lo hi : ℚ) : List ℚ :=
  if hi < lo then []
  else (List.range ((⌊(hi - lo) / 2⌋).toNat + 1)).map (fun k => lo + 2 * (k : ℚ))

/-- Scan phase of PaletteGenerator.findOptimalColor.  `.error c` models the
early `return testColor` inside the loop; `.ok (best, bestContrast)` is the
state left for the expanded search. -/
noncomputable def findOptimalScan (h s : ℚ) (bg : ColorUtil) (target upper : ℚ) :
    List ℚ → ColorUtil → ℝ → Except ColorUtil (ColorUtil × ℝ)
  | [], best, bestContrast => .ok (best, bestContrast)
  | l :: ls, best, bestContrast =>
    let testColor := ColorUtil.fromHsl h s l
    let testContrast := ColorUtil.contrastWith testColor bg
    if (target : ℝ) ≤ testContrast ∧ testContrast ≤ (upper : ℝ) then .error testColor
    else if |testContrast - (target : ℝ)| < |bestContrast - (target : ℝ)| then
      findOptimalScan h s bg target upper ls testColor testContrast
    else
      findOptimalScan h s bg target upper ls best bestContrast

/-- Loop body of PaletteGenerator.expandedColorSearch (up to 45 steps,
stopping when lightness leaves [5,95] or the target ratio is reached). -/
noncomputable def expandedLoop (h s : ℚ) (bg : ColorUtil) (target delta : ℚ) :
    ℕ → ℚ → ColorUtil → ℝ → ColorUtil
  | 0, _, best, _ => best
  | n + 1, lightness0, best, bestContrast =>
    let lightness := lightness0 + delta
    if lightness < 5 ∨ 95 < lightness then best
    else
      let testColor := ColorUtil.fromHsl h s lightness
      let testContrast := ColorUtil.contrastWith testColor bg
      if (target : ℝ) ≤ testContrast then testColor
      else if bestContrast < testContrast then
        expandedLoop h s bg target delta n lightness testColor testContrast
      else
        expandedLoop h s bg target delta n lightness best bestContrast

/-- PaletteGenerator.expandedColorSearch. -/
noncomputable def expandedColorSearch (h s : ℚ) (bg : ColorUtil) (target : ℚ)
    (isLightBackground : Bool) (range : ℚ × ℚ) (bestColor : ColorUtil) : ColorUtil :=
  let step : ℚ := if 7 ≤ target then 1 else 2
  let searchDirection : ℚ := if isLightBackground then -1 else 1
  expandedLoop h s bg target (searchDirection * step) 45 ((range.1 + range.2) / 2)
    bestColor (ColorUtil.contrastWith bestColor bg)

/-- PaletteGenerator.findOptimalColor: scan the slot's lightness range in
steps of 2, then fall back to the expanded search. -/
noncomputable def findOptimalColor (harmonyType : HarmonyType)
    (originalColor bg : ColorUtil) (target upper : ℚ)
    (colorIndex totalColors : ℕ) : ColorUtil :=
  let originalHsl := originalColor.hsl
  let isLightBackground : Bool := decide ((0.5 : ℝ) < ColorUtil.getLuminance bg)
  let range := getTargetLightnessRange isLightBackground colorIndex totalColors harmonyType
  match findOptimalScan originalHsl.h originalHsl.s bg target upper
      (scanLightnessValues range.1 range.2) originalColor
      (ColorUtil.contrastWith originalColor bg) with
  | .error c => c
  | .ok (best, _) => expandedColorSearch originalHsl.h originalHsl.s bg target
      isLightBackground range best

/-- PaletteGenerator.optimizeColorForBackground. -/
noncomputable def optimizeColorForBackground (harmonyType : HarmonyType)
    (originalColor bg : ColorUtil) (target : ℚ) (colorIndex totalColors : ℕ) : ColorUtil :=
  let currentContrast := ColorUtil.contrastWith originalColor bg
  let upper : ℚ := if target = 4.5 then 6.0 else 8.5
  if (target : ℝ) ≤ currentContrast then
    if currentContrast ≤ (upper : ℝ) then originalColor else originalColor
  else
    findOptimalColor harmonyType originalColor bg target upper colorIndex totalColors

/-- PaletteGenerator.generateOptimizedPalette. -/
noncomputable def generateOptimizedPalette (harmonyType : HarmonyType)
    (baseColors : List ColorUtil) (bg : ColorUtil) (minContrast : ℚ) : List ColorUtil :=
  jsMapIdx (fun i c => optimizeColorForBackground harmonyType c bg minContrast i baseColors.length)
    baseColors

/-- PaletteGenerator.getCircularHueDistance. -/
def getCircularHueDistance (hue1 hue2 : ℚ) : ℚ :=
  let h1 := jsMod (jsMod hue1 360 + 360) 360
  let h2 := jsMod (jsMod hue2 360 + 360) 360
  let diff := |h1 - h2|
  min diff (360 - diff)

/-- PaletteGenerator.getOptimalLightnessDistribution. -/
def getOptimalLightnessDistribution (paletteSize : ℕ) (isLightBackground : Bool) : List ℚ :=
  if isLightBackground then
    if paletteSize = 3 then [15, 35, 55] else [10, 25, 40, 55, 70]
  else
    if paletteSize = 3 then [60, 75, 90] else [50, 65, 80, 90, 95]

/-- Adjustment loop of PaletteGenerator.adjustColorToTargetLightness
(`for (let adjustment = 5; adjustment <= 25; adjustment += 5)`). -/
noncomputable def adjustLightLoop (h s : ℚ) (bg : ColorUtil) (minContrast targetL dir : ℚ)
    (orig : ColorUtil) : List ℚ → ColorUtil
  | [] => orig
  | a :: rest =>
    let adjustedLightness := max 5 (min 95 (targetL + dir * a))
    let testColor := ColorUtil.fromHsl h s adjustedLightness
    if (minContrast : ℝ) ≤ ColorUtil.contrastWith testColor bg then testColor
    else adjustLightLoop h s bg minContrast targetL dir orig rest

/-- PaletteGenerator.adjustColorToTargetLightness. -/
noncomputable def adjustColorToTargetLightness (orig bg : ColorUtil)
    (minContrast targetL : ℚ) : ColorUtil :=
  let originalHsl := orig.hsl
  let testColor := ColorUtil.fromHsl originalHsl.h originalHsl.s targetL
  if (minContrast : ℝ) ≤ ColorUtil.contrastWith testColor bg then testColor
  else
    let searchDirection : ℚ := if (0.5 : ℝ) < ColorUtil.getLuminance bg then -1 else 1
    adjustLightLoop originalHsl.h originalHsl.s bg minContrast targetL searchDirection orig
      [5, 10, 15, 20, 25]

/-- PaletteGenerator.distributeColorsOptimally (stage 1).  The per-slot write
only depends on that slot, so the in-place loop is an indexed map; the
`minLightnessDiff` parameter is accepted but never read, as in the source. -/
noncomputable def distributeColorsOptimally (palette : List ColorUtil) (bg : ColorUtil)
    (minContrast minLightnessDiff : ℚ) : List ColorUtil :=
  let isLightBackground : Bool := decide ((0.5 : ℝ) < ColorUtil.getLuminance bg)
  let optimalLightness := getOptimalLightnessDistribution palette.length isLightBackground
  jsMapIdx (fun i c => adjustColorToTargetLightness c bg minContrast (optimalLightness.getD i 0))
    palette

/-- Pair collection of PaletteGenerator.adjustSaturationForDifferentiation,
computed on the palette state entering stage 2. -/
def collectSatPairs (palette : List ColorUtil) (minSatDiff : ℚ) : List (ℕ × ℕ) :=
  List.join ((List.range palette.length).map (fun i =>
    ((List.range palette.length).drop (i + 1)).filterMap (fun j =>
      if |(palette.getD i junkColor).hsl.s - (palette.getD j junkColor).hsl.s| < minSatDiff
          ∧ |(palette.getD i junkColor).hsl.l - (palette.getD j junkColor).hsl.l| < 15
      then some (i, j) else none)))

/-- PaletteGenerator.adjustSaturationForDifferentiation (stage 2): pushes the
second slot of each similar pair by `minSatDiff + 10`, with no contrast check;
later pairs see the writes of earlier ones, as with the mutated array. -/
def adjustSaturationForDifferentiation (palette : List ColorUtil) (minSatDiff : ℚ) :
    List ColorUtil :=
  (collectSatPairs palette minSatDiff).foldl (fun pal ij =>
    let color1 := pal.getD ij.1 junkColor
    let color2 := pal.getD ij.2 junkColor
    let adjustment := minSatDiff + 10
    let newSat :=
      if color1.hsl.s < color2.hsl.s then min 95 (color2.hsl.s + adjustment)
      else max 20 (color2.hsl.s - adjustment)
    pal.set ij.2 (ColorUtil.fromHsl color2.hsl.h newSat color2.hsl.l)) palette

/-- Pair collection of PaletteGenerator.applyMinimalHueAdjustments, computed
on the palette state entering stage 3. -/
def collectHuePairs (palette : List ColorUtil) : List (ℕ × ℕ) :=
  List.join ((List.range palette.length).map (fun i =>
    ((List.range palette.length).drop (i + 1)).filterMap (fun j =>
      if getCircularHueDistance (palette.getD i junkColor).hsl.h (palette.getD j junkColor).hsl.h < 15
          ∧ |(palette.getD i junkColor).hsl.l - (palette.getD j junkColor).hsl.l| < 10
          ∧ |(palette.getD i junkColor).hsl.s - (palette.getD j junkColor).hsl.s| < 10
      then some (i, j) else none)))

/-- PaletteGenerator.applyMinimalHueAdjustments (stage 3): tries hue shifts of
+10 then -10 degrees on the second slot, accepting the first direction that
still meets the contrast ratio. -/
noncomputable def applyMinimalHueAdjustments (palette : List ColorUtil) (bg : ColorUtil)
    (minContrast maxHueAdjustment : ℚ) : List ColorUtil :=
  (collectHuePairs palette).foldl (fun pal ij =>
    let color := pal.getD ij.2 junkColor
    let test1 := ColorUtil.fromHsl (jsMod (color.hsl.h + 1 * maxHueAdjustment + 360) 360)
      color.hsl.s color.hsl.l
    if (minContrast : ℝ) ≤ ColorUtil.contrastWith test1 bg then pal.set ij.2 test1
    else
      let test2 := ColorUtil.fromHsl (jsMod (color.hsl.h + (-1) * maxHueAdjustment + 360) 360)
        color.hsl.s color.hsl.l
      if (minContrast : ℝ) ≤ ColorUtil.contrastWith test2 bg then pal.set ij.2 test2
      else pal) palette

/-- PaletteGenerator.ensureMinimumContrast: re-optimizes any slot below the
minimum with upper bound `minContrast * 1.5`. -/
noncomputable def ensureMinimumContrast (harmonyType : HarmonyType)
    (palette : List ColorUtil) (bg : ColorUtil) (minContrast : ℚ) : List ColorUtil :=
  jsMapIdx (fun i c =>
    if ColorUtil.contrastWith c bg < (minContrast : ℝ) then
      findOptimalColor harmonyType c bg minContrast (minContrast * 1.5) i palette.length
    else c) palette

/-- PaletteGenerator.enhanceMonochromaticDifferentiation: widened lightness
ladder (inverted on dark backgrounds), +5 degree hue steps, saturation floored
at 40, followed by the contrast-repair pass. -/
noncomputable def enhanceMonochromaticDifferentiation (harmonyType : HarmonyType)
    (palette : List ColorUtil) (bg : ColorUtil) (minContrast : ℚ) : List ColorUtil :=
  let isLightBackground : Bool := decide ((0.5 : ℝ) < ColorUtil.getLuminance bg)
  let baseHue := (palette.headD junkColor).hsl.h
  let lightnessValues : List ℚ :=
    if palette.length = 3 then [15, 50, 85] else [10, 30, 50, 70, 90]
  ensureMinimumContrast harmonyType
    (jsMapIdx (fun i c =>
      ColorUtil.fromHsl (jsMod (baseHue + (i : ℚ) * 5) 360) (max 40 c.hsl.s)
        (if isLightBackground then lightnessValues.getD i 0
         else 100 - lightnessValues.getD i 0)) palette)
    bg minContrast

/-- Differentiation configuration (`differentiationSettings`). -/
structure DifferentiationSettings where
  enabled : Bool
  minHueDifference : ℚ
  minLuminanceDifference : ℚ
deriving DecidableEq

/-- PaletteGenerator.applySimpleDifferentiation: monochromatic detection, then
either the dedicated monochromatic routine or the three general stages. -/
noncomputable def applySimpleDifferentiation (harmonyType : HarmonyType)
    (palette : List ColorUtil) (bg : ColorUtil) (minContrast : ℚ)
    (ds : DifferentiationSettings) : List ColorUtil :=
  let minLightnessDifference := jsOr ds.minLuminanceDifference 10
  let minSaturationDifference : ℚ := 20
  let maxHueAdjustment : ℚ := 10
  if palette.all (fun c =>
      decide (getCircularHueDistance c.hsl.h ((palette.headD junkColor).hsl.h) < 5)) then
    enhanceMonochromaticDifferentiation harmonyType palette bg minContrast
  else
    applyMinimalHueAdjustments
      (adjustSaturationForDifferentiation
        (distributeColorsOptimally palette bg minContrast minLightnessDifference)
        minSaturationDifference)
      bg minContrast maxHueAdjustment

/-- Settings object accepted by `generatePalette`; `none` models a field left
`undefined` so that the destructuring defaults apply. -/
structure GenerateOptions where
  paletteSize : Option ℤ
  wcagLevel : Option String
  harmonyType : Option HarmonyType
  baseColor : Option String
  differentiationSettings : Option DifferentiationSettings

/-- Result triple of `generatePalette`. -/
structure GeneratedPalettes where
  base : List ColorUtil
  lightOptimized : List ColorUtil
  darkOptimized : List ColorUtil
deriving DecidableEq

/-- PaletteGenerator.generatePalette with the mutable `this.harmonyType` field
threaded explicitly: `st` is the field value before the call (it is
overwritten before any use) and the second component is its value after. -/
noncomputable def generatePaletteRun (st : HarmonyType) (options : GenerateOptions) :
    Except JsError GeneratedPalettes × HarmonyType :=
  let ht := options.harmonyType.getD HarmonyType.triadic
  let paletteSize := options.paletteSize.getD 5
  let wcagLevel := options.wcagLevel.getD "AA"
  let baseColor := options.baseColor.getD "#5500AA"
  let ds := options.differentiationSettings.getD ⟨true, 15, 10⟩
  let size := validateSize paletteSize
  let minContrast : ℚ := if wcagLevel = "AAA" then 7 else 4.5
  let result : Except JsError GeneratedPalettes :=
    match generateBaseColorsE baseColor ht size.toNat with
    | .error e => .error e
    | .ok baseColors =>
      let lightColors := generateOptimizedPalette ht baseColors whiteColor minContrast
      let darkColors := generateOptimizedPalette ht baseColors darkBgColor minContrast
      .ok
        { base := baseColors
          lightOptimized :=
            if ds.enabled then applySimpleDifferentiation ht lightColors whiteColor minContrast ds
            else lightColors
          darkOptimized :=
            if ds.enabled then applySimpleDifferentiation ht darkColors darkBgColor minContrast ds
            else darkColors }
  (result, ht)

/-- Options object with every field left `undefined`. -/
def defaultOpts : GenerateOptions :=
  { paletteSize := none, wcagLevel := none, harmonyType := none
    baseColor := none, differentiationSettings := none }

/-- Channels of a real sRGB color: each coordinate lies in [0, 255]. -/
def validRgb (c : ColorUtil) : Prop :=
  0 ≤ c.rgb.r ∧ c.rgb.r ≤ 255 ∧ 0 ≤ c.rgb.g ∧ c.rgb.g ≤ 255 ∧ 0 ≤ c.rgb.b ∧ c.rgb.b ≤ 255

instance (c : ColorUtil) : Decidable (validRgb c) := by
  unfold validRgb; infer_instance

/-- Base palette used to exhibit a contrast drop across differentiation:
three fully saturated, very dark primaries. -/
def cxBase : List ColorUtil :=
  [ColorUtil.fromHsl 0 100 10, ColorUtil.fromHsl 120 100 10, ColorUtil.fromHsl 240 100 10]

/-- A nearly monochromatic optimized palette (all hues within 5 degrees). -/
def monoPalette : List ColorUtil :=
  [ColorUtil.fromHsl 100 50 20, ColorUtil.fromHsl 102 50 40, ColorUtil.fromHsl 104 50 60]

/-- Outcome predicate for the scan phase: whichever way it ends, the carried
color has the stated hue and saturation. -/
def preservesHS (h s : ℚ) : Except ColorUtil (ColorUtil × ℝ) → Prop
  | .error c => c.hsl.h = h ∧ c.hsl.s = s
  | .ok (b, _) => b.hsl.h = h ∧ b.hsl.s = s

/-! ### Helper lemmas -/

theorem fromHsl_hsl (h s l : ℚ) : (ColorUtil.fromHsl h s l).hsl = ⟨h, s, l⟩ := rfl

theorem getLuminance_rgb (c : ColorUtil) :
    ColorUtil.getLuminance c =
      0.2126 * linearizeChannel (c.rgb.r / 255) + 0.7152 * linearizeChannel (c.rgb.g / 255)
        + 0.0722 * linearizeChannel (c.rgb.b / 255) := rfl

theorem linearizeChannel_zero : linearizeChannel 0 = 0 := by
  unfold linearizeChannel
  rw [if_pos (by norm_num)]
  norm_num

theorem linearizeChannel_one : linearizeChannel 1 = 1 := by
  unfold linearizeChannel
  rw [if_neg (by norm_num)]
  have h : (((1 : ℚ) : ℝ) + 0.055) / 1.055 = 1 := by norm_num
  rw [h, Real.one_rpow]

theorem linearizeChannel_nonneg (c : ℚ) (hc : 0 ≤ c) : 0 ≤ linearizeChannel c := by
  have h0 : (0 : ℝ) ≤ (c : ℝ) := by exact_mod_cast hc
  unfold linearizeChannel
  split_ifs with h
  · positivity
  · exact Real.rpow_nonneg (by positivity) _

theorem linearizeChannel_le_one (c : ℚ) (hc0 : 0 ≤ c) (hc1 : c ≤ 1) :
    linearizeChannel c ≤ 1 := by
  have h0 : (0 : ℝ) ≤ (c : ℝ) := by exact_mod_cast hc0
  have h1 : (c : ℝ) ≤ 1 := by exact_mod_cast hc1
  unfold linearizeChannel
  split_ifs with h
  · rw [div_le_one (by norm_num)]
    linarith
  · apply Real.rpow_le_one (by positivity)
    · rw [div_le_one (by norm_num)]
      linarith
    · norm_num

theorem getLuminance_nonneg (c : ColorUtil) (h : validRgb c) :
    0 ≤ ColorUtil.getLuminance c := by
  obtain ⟨h1, h2, h3, h4, h5, h6⟩ := h
  rw [getLuminance_rgb]
  have e1 := linearizeChannel_nonneg (c.rgb.r / 255) (by positivity)
  have e2 := linearizeChannel_nonneg (c.rgb.g / 255) (by positivity)
  have e3 := linearizeChannel_nonneg (c.rgb.b / 255) (by positivity)
  nlinarith

theorem getLuminance_le_one (c : ColorUtil) (h : validRgb c) :
    ColorUtil.getLuminance c ≤ 1 := by
  obtain ⟨h1, h2, h3, h4, h5, h6⟩ := h
  rw [getLuminance_rgb]
  have e1 := linearizeChannel_le_one (c.rgb.r / 255) (by positivity)
    (by rw [div_le_one (by norm_num)]; exact h2)
  have e2 := linearizeChannel_le_one (c.rgb.g / 255) (by positivity)
    (by rw [div_le_one (by norm_num)]; exact h4)
  have e3 := linearizeChannel_le_one (c.rgb.b / 255) (by positivity)
    (by rw [div_le_one (by norm_num)]; exact h6)
  have e4 := linearizeChannel_nonneg (c.rgb.r / 255) (by positivity)
  have e5 := linearizeChannel_nonneg (c.rgb.g / 255) (by positivity)
  have e6 := linearizeChannel_nonneg (c.rgb.b / 255) (by positivity)
  nlinarith

theorem whiteColor_luminance : ColorUtil.getLuminance whiteColor = 1 := by
  have h : (255 : ℚ) / 255 = 1 := by norm_num
  rw [getLuminance_rgb]
  show 0.2126 * linearizeChannel ((255 : ℚ) / 255) + 0.7152 * linearizeChannel ((255 : ℚ) / 255)
    + 0.0722 * linearizeChannel ((255 : ℚ) / 255) = 1
  rw [h, linearizeChannel_one]
  norm_num

theorem blackColor_luminance : ColorUtil.getLuminance blackColor = 0 := by
  have h : (0 : ℚ) / 255 = 0 := by norm_num
  rw [getLuminance_rgb]
  show 0.2126 * linearizeChannel ((0 : ℚ) / 255) + 0.7152 * linearizeChannel ((0 : ℚ) / 255)
    + 0.0722 * linearizeChannel ((0 : ℚ) / 255) = 0
  rw [h, linearizeChannel_zero]
  norm_num

theorem isLight_white : decide ((0.5 : ℝ) < ColorUtil.getLuminance whiteColor) = true :=
  decide_eq_true (by rw [whiteColor_luminance]; norm_num)

theorem contrastWith_white_eq (c : ColorUtil) (h1 : ColorUtil.getLuminance c ≤ 1) :
    ColorUtil.contrastWith c whiteColor = 1.05 / (ColorUtil.getLuminance c + 0.05) := by
  simp only [ColorUtil.contrastWith]
  rw [whiteColor_luminance, max_eq_right h1, min_eq_left h1]
  norm_num

theorem contrastWith_white_ge (c : ColorUtil) (h0 : 0 ≤ ColorUtil.getLuminance c)
    (h : ColorUtil.getLuminance c ≤ 11 / 60) :
    (4.5 : ℝ) ≤ ColorUtil.contrastWith c whiteColor := by
  rw [contrastWith_white_eq c (le_trans h (by norm_num))]
  rw [le_div_iff (by linarith)]
  linarith

theorem contrastWith_white_lt (c : ColorUtil) (h0 : 0 ≤ ColorUtil.getLuminance c)
    (h1 : ColorUtil.getLuminance c ≤ 1) (h : 11 / 60 < ColorUtil.getLuminance c) :
    ColorUtil.contrastWith c whiteColor < (4.5 : ℝ) := by
  rw [contrastWith_white_eq c h1]
  rw [div_lt_iff (by linarith)]
  linarith

theorem rpow24_le_of_pow {x y : ℝ} (hx : 0 ≤ x) (hy : 0 ≤ y)
    (h : x ^ (12 : ℕ) ≤ y ^ (5 : ℕ)) : x ^ (2.4 : ℝ) ≤ y := by
  have key : (x ^ (2.4 : ℝ)) ^ (5 : ℕ) = x ^ (12 : ℕ) := by
    rw [← Real.rpow_natCast (x ^ (2.4 : ℝ)) 5, ← Real.rpow_mul hx, ← Real.rpow_natCast x 12]
    norm_num
  have h5 : (x ^ (2.4 : ℝ)) ^ (5 : ℕ) ≤ y ^ (5 : ℕ) := by rw [key]; exact h
  exact (pow_le_pow_iff_left₀ (Real.rpow_nonneg hx _) hy (by norm_num)).1 h5

theorem le_rpow24_of_pow {x y : ℝ} (hx : 0 ≤ x) (hy : 0 ≤ y)
    (h : y ^ (5 : ℕ) ≤ x ^ (12 : ℕ)) : y ≤ x ^ (2.4 : ℝ) := by
  have key : (x ^ (2.4 : ℝ)) ^ (5 : ℕ) = x ^ (12 : ℕ) := by
    rw [← Real.rpow_natCast (x ^ (2.4 : ℝ)) 5, ← Real.rpow_mul hx, ← Real.rpow_natCast x 12]
    norm_num
  have h5 : y ^ (5 : ℕ) ≤ (x ^ (2.4 : ℝ)) ^ (5 : ℕ) := by rw [key]; exact h
  exact (pow_le_pow_iff_left₀ hy (Real.rpow_nonneg hx _) (by norm_num)).1 h5

theorem cast45 : (((4.5 : ℚ)) : ℝ) = (4.5 : ℝ) := by norm_num

theorem fromHsl_rgb (h s l : ℚ) : (ColorUtil.fromHsl h s l).rgb = hslToRgb h s l := rfl

theorem lin_tenth_le : linearizeChannel (1 / 10) ≤ 1 / 50 := by
  unfold linearizeChannel
  rw [if_neg (by norm_num)]
  apply rpow24_le_of_pow (by norm_num) (by norm_num)
  norm_num

theorem lin_fifth_le : linearizeChannel (1 / 5) ≤ 1 / 25 := by
  unfold linearizeChannel
  rw [if_neg (by norm_num)]
  apply rpow24_le_of_pow (by norm_num) (by norm_num)
  norm_num

theorem lin_three_tenths_le : linearizeChannel (3 / 10) ≤ 2 / 25 := by
  unfold linearizeChannel
  rw [if_neg (by norm_num)]
  apply rpow24_le_of_pow (by norm_num) (by norm_num)
  norm_num

theorem lin_half_le : linearizeChannel (1 / 2) ≤ 11 / 50 := by
  unfold linearizeChannel
  rw [if_neg (by norm_num)]
  apply rpow24_le_of_pow (by norm_num) (by norm_num)
  norm_num

theorem lin_three_fifths_ge : (13 : ℝ) / 50 ≤ linearizeChannel (3 / 5) := by
  unfold linearizeChannel
  rw [if_neg (by norm_num)]
  apply le_rpow24_of_pow (by norm_num) (by norm_num)
  norm_num

theorem lin_seven_tenths_ge : (3 : ℝ) / 10 ≤ linearizeChannel (7 / 10) := by
  unfold linearizeChannel
  rw [if_neg (by norm_num)]
  apply le_rpow24_of_pow (by norm_num) (by norm_num)
  norm_num

theorem lin_fifth_lt_three_tenths : linearizeChannel (1 / 5) < linearizeChannel (3 / 10) := by
  unfold linearizeChannel
  rw [if_neg (by norm_num), if_neg (by norm_num)]
  exact Real.rpow_lt_rpow (by norm_num) (by norm_num) (by norm_num)

theorem lum_red10_eq : ColorUtil.getLuminance (ColorUtil.fromHsl 0 100 10)
    = 0.2126 * linearizeChannel (1 / 5) := by
  have hr : (ColorUtil.fromHsl 0 100 10).rgb = ⟨51, 0, 0⟩ := by
    rw [fromHsl_rgb]; norm_num [hslToRgb, hue2rgb]
  rw [getLuminance_rgb, hr]
  have h1 : ((51 : ℚ)) / 255 = 1 / 5 := by norm_num
  have h2 : ((0 : ℚ)) / 255 = 0 := by norm_num
  show 0.2126 * linearizeChannel ((51 : ℚ) / 255) + 0.7152 * linearizeChannel ((0 : ℚ) / 255)
    + 0.0722 * linearizeChannel ((0 : ℚ) / 255) = _
  rw [h1, h2, linearizeChannel_zero]
  ring

theorem lum_green10_eq : ColorUtil.getLuminance (ColorUtil.fromHsl 120 100 10)
    = 0.7152 * linearizeChannel (1 / 5) := by
  have hr : (ColorUtil.fromHsl 120 100 10).rgb = ⟨0, 51, 0⟩ := by
    rw [fromHsl_rgb]; norm_num [hslToRgb, hue2rgb]
  rw [getLuminance_rgb, hr]
  have h1 : ((51 : ℚ)) / 255 = 1 / 5 := by norm_num
  have h2 : ((0 : ℚ)) / 255 = 0 := by norm_num
  show 0.2126 * linearizeChannel ((0 : ℚ) / 255) + 0.7152 * linearizeChannel ((51 : ℚ) / 255)
    + 0.0722 * linearizeChannel ((0 : ℚ) / 255) = _
  rw [h1, h2, linearizeChannel_zero]
  ring

theorem lum_blue10_eq : ColorUtil.getLuminance (ColorUtil.fromHsl 240 100 10)
    = 0.0722 * linearizeChannel (1 / 5) := by
  have hr : (ColorUtil.fromHsl 240 100 10).rgb = ⟨0, 0, 51⟩ := by
    rw [fromHsl_rgb]; norm_num [hslToRgb, hue2rgb]
  rw [getLuminance_rgb, hr]
  have h1 : ((51 : ℚ)) / 255 = 1 / 5 := by norm_num
  have h2 : ((0 : ℚ)) / 255 = 0 := by norm_num
  show 0.2126 * linearizeChannel ((0 : ℚ) / 255) + 0.7152 * linearizeChannel ((0 : ℚ) / 255)
    + 0.0722 * linearizeChannel ((51 : ℚ) / 255) = _
  rw [h1, h2, linearizeChannel_zero]
  ring

theorem lum_red15_eq : ColorUtil.getLuminance (ColorUtil.fromHsl 0 100 15)
    = 0.2126 * linearizeChannel (3 / 10) := by
  have hr : (ColorUtil.fromHsl 0 100 15).rgb = ⟨153 / 2, 0, 0⟩ := by
    rw [fromHsl_rgb]; norm_num [hslToRgb, hue2rgb]
  rw [getLuminance_rgb, hr]
  have h1 : ((153 : ℚ) / 2) / 255 = 3 / 10 := by norm_num
  have h2 : ((0 : ℚ)) / 255 = 0 := by norm_num
  show 0.2126 * linearizeChannel (((153 : ℚ) / 2) / 255) + 0.7152 * linearizeChannel ((0 : ℚ) / 255)
    + 0.0722 * linearizeChannel ((0 : ℚ) / 255) = _
  rw [h1, h2, linearizeChannel_zero]
  ring

theorem lum_green35_eq : ColorUtil.getLuminance (ColorUtil.fromHsl 120 100 35)
    = 0.7152 * linearizeChannel (7 / 10) := by
  have hr : (ColorUtil.fromHsl 120 100 35).rgb = ⟨0, 357 / 2, 0⟩ := by
    rw [fromHsl_rgb]; norm_num [hslToRgb, hue2rgb]
  rw [getLuminance_rgb, hr]
  have h1 : ((357 : ℚ) / 2) / 255 = 7 / 10 := by norm_num
  have h2 : ((0 : ℚ)) / 255 = 0 := by norm_num
  show 0.2126 * linearizeChannel ((0 : ℚ) / 255) + 0.7152 * linearizeChannel (((357 : ℚ) / 2) / 255)
    + 0.0722 * linearizeChannel ((0 : ℚ) / 255) = _
  rw [h1, h2, linearizeChannel_zero]
  ring

theorem lum_green30_eq : ColorUtil.getLuminance (ColorUtil.fromHsl 120 100 30)
    = 0.7152 * linearizeChannel (3 / 5) := by
  have hr : (ColorUtil.fromHsl 120 100 30).rgb = ⟨0, 153, 0⟩ := by
    rw [fromHsl_rgb]; norm_num [hslToRgb, hue2rgb]
  rw [getLuminance_rgb, hr]
  have h1 : ((153 : ℚ)) / 255 = 3 / 5 := by norm_num
  have h2 : ((0 : ℚ)) / 255 = 0 := by norm_num
  show 0.2126 * linearizeChannel ((0 : ℚ) / 255) + 0.7152 * linearizeChannel ((153 : ℚ) / 255)
    + 0.0722 * linearizeChannel ((0 : ℚ) / 255) = _
  rw [h1, h2, linearizeChannel_zero]
  ring

theorem lum_green25_eq : ColorUtil.getLuminance (ColorUtil.fromHsl 120 100 25)
    = 0.7152 * linearizeChannel (1 / 2) := by
  have hr : (ColorUtil.fromHsl 120 100 25).rgb = ⟨0, 255 / 2, 0⟩ := by
    rw [fromHsl_rgb]; norm_num [hslToRgb, hue2rgb]
  rw [getLuminance_rgb, hr]
  have h1 : ((255 : ℚ) / 2) / 255 = 1 / 2 := by norm_num
  have h2 : ((0 : ℚ)) / 255 = 0 := by norm_num
  show 0.2126 * linearizeChannel ((0 : ℚ) / 255) + 0.7152 * linearizeChannel (((255 : ℚ) / 2) / 255)
    + 0.0722 * linearizeChannel ((0 : ℚ) / 255) = _
  rw [h1, h2, linearizeChannel_zero]
  ring

theorem lum_blue55_eq : ColorUtil.getLuminance (ColorUtil.fromHsl 240 100 55)
    = 0.2126 * linearizeChannel (1 / 10) + 0.7152 * linearizeChannel (1 / 10) + 0.0722 := by
  have hr : (ColorUtil.fromHsl 240 100 55).rgb = ⟨51 / 2, 51 / 2, 255⟩ := by
    rw [fromHsl_rgb]; norm_num [hslToRgb, hue2rgb]
  rw [getLuminance_rgb, hr]
  have h1 : ((51 : ℚ) / 2) / 255 = 1 / 10 := by norm_num
  have h2 : ((255 : ℚ)) / 255 = 1 := by norm_num
  show 0.2126 * linearizeChannel (((51 : ℚ) / 2) / 255) + 0.7152 * linearizeChannel (((51 : ℚ) / 2) / 255)
    + 0.0722 * linearizeChannel ((255 : ℚ) / 255) = _
  rw [h1, h2, linearizeChannel_one]
  ring

theorem lin_tenth_nonneg : 0 ≤ linearizeChannel (1 / 10) :=
  linearizeChannel_nonneg (1 / 10) (by norm_num)

theorem lin_fifth_nonneg : 0 ≤ linearizeChannel (1 / 5) :=
  linearizeChannel_nonneg (1 / 5) (by norm_num)

theorem lin_three_tenths_nonneg : 0 ≤ linearizeChannel (3 / 10) :=
  linearizeChannel_nonneg (3 / 10) (by norm_num)

theorem lin_half_nonneg : 0 ≤ linearizeChannel (1 / 2) :=
  linearizeChannel_nonneg (1 / 2) (by norm_num)

theorem opt_red10 : optimizeColorForBackground HarmonyType.triadic (ColorUtil.fromHsl 0 100 10)
    whiteColor 4.5 0 3 = ColorUtil.fromHsl 0 100 10 := by
  have hc : (((4.5 : ℚ)) : ℝ) ≤ ColorUtil.contrastWith (ColorUtil.fromHsl 0 100 10) whiteColor := by
    rw [cast45]
    apply contrastWith_white_ge
    · rw [lum_red10_eq]; linarith [lin_fifth_nonneg]
    · rw [lum_red10_eq]; linarith [lin_fifth_le]
  unfold optimizeColorForBackground
  rw [if_pos hc, ite_self]

theorem opt_green10 : optimizeColorForBackground HarmonyType.triadic (ColorUtil.fromHsl 120 100 10)
    whiteColor 4.5 1 3 = ColorUtil.fromHsl 120 100 10 := by
  have hc : (((4.5 : ℚ)) : ℝ) ≤ ColorUtil.contrastWith (ColorUtil.fromHsl 120 100 10) whiteColor := by
    rw [cast45]
    apply contrastWith_white_ge
    · rw [lum_green10_eq]; linarith [lin_fifth_nonneg]
    · rw [lum_green10_eq]; linarith [lin_fifth_le]
  unfold optimizeColorForBackground
  rw [if_pos hc, ite_self]

theorem opt_blue10 : optimizeColorForBackground HarmonyType.triadic (ColorUtil.fromHsl 240 100 10)
    whiteColor 4.5 2 3 = ColorUtil.fromHsl 240 100 10 := by
  have hc : (((4.5 : ℚ)) : ℝ) ≤ ColorUtil.contrastWith (ColorUtil.fromHsl 240 100 10) whiteColor := by
    rw [cast45]
    apply contrastWith_white_ge
    · rw [lum_blue10_eq]; linarith [lin_fifth_nonneg]
    · rw [lum_blue10_eq]; linarith [lin_fifth_le]
  unfold optimizeColorForBackground
  rw [if_pos hc, ite_self]

theorem cx_opt : generateOptimizedPalette HarmonyType.triadic cxBase whiteColor 4.5 = cxBase := by
  show jsMapIdx _ cxBase = cxBase
  rw [show cxBase = [ColorUtil.fromHsl 0 100 10, ColorUtil.fromHsl 120 100 10,
    ColorUtil.fromHsl 240 100 10] from rfl]
  simp only [jsMapIdx, jsMapIdxGo]
  rw [show (0 : ℕ) + 1 = 1 from rfl, show (1 : ℕ) + 1 = 2 from rfl,
    show [ColorUtil.fromHsl 0 100 10, ColorUtil.fromHsl 120 100 10,
      ColorUtil.fromHsl 240 100 10].length = 3 from rfl,
    opt_red10, opt_green10, opt_blue10]

theorem adj_red : adjustColorToTargetLightness (ColorUtil.fromHsl 0 100 10) whiteColor 4.5 15
    = ColorUtil.fromHsl 0 100 15 := by
  have hc : (((4.5 : ℚ)) : ℝ) ≤ ColorUtil.contrastWith (ColorUtil.fromHsl 0 100 15) whiteColor := by
    rw [cast45]
    apply contrastWith_white_ge
    · rw [lum_red15_eq]; linarith [lin_three_tenths_nonneg]
    · rw [lum_red15_eq]; linarith [lin_three_tenths_le]
  unfold adjustColorToTargetLightness
  rw [fromHsl_hsl]
  dsimp only
  rw [if_pos hc]

theorem adj_green : adjustColorToTargetLightness (ColorUtil.fromHsl 120 100 10) whiteColor 4.5 35
    = ColorUtil.fromHsl 120 100 25 := by
  have hl1 : linearizeChannel (7 / 10) ≤ 1 :=
    linearizeChannel_le_one (7 / 10) (by norm_num) (by norm_num)
  have hl2 : linearizeChannel (3 / 5) ≤ 1 :=
    linearizeChannel_le_one (3 / 5) (by norm_num) (by norm_num)
  have hnc35 : ¬ (((4.5 : ℚ)) : ℝ) ≤ ColorUtil.contrastWith (ColorUtil.fromHsl 120 100 35) whiteColor := by
    rw [cast45]
    apply not_le.mpr
    apply contrastWith_white_lt
    · rw [lum_green35_eq]; linarith [lin_seven_tenths_ge]
    · rw [lum_green35_eq]; linarith
    · rw [lum_green35_eq]; linarith [lin_seven_tenths_ge]
  have hnc30 : ¬ (((4.5 : ℚ)) : ℝ) ≤ ColorUtil.contrastWith (ColorUtil.fromHsl 120 100 30) whiteColor := by
    rw [cast45]
    apply not_le.mpr
    apply contrastWith_white_lt
    · rw [lum_green30_eq]; linarith [lin_three_fifths_ge]
    · rw [lum_green30_eq]; linarith
    · rw [lum_green30_eq]; linarith [lin_three_fifths_ge]
  have hc25 : (((4.5 : ℚ)) : ℝ) ≤ ColorUtil.contrastWith (ColorUtil.fromHsl 120 100 25) whiteColor := by
    rw [cast45]
    apply contrastWith_white_ge
    · rw [lum_green25_eq]; linarith [lin_half_nonneg]
    · rw [lum_green25_eq]; linarith [lin_half_le]
  unfold adjustColorToTargetLightness
  rw [fromHsl_hsl]
  dsimp only
  rw [if_neg hnc35, whiteColor_luminance, if_pos (by norm_num : (0.5 : ℝ) < 1)]
  simp only [adjustLightLoop]
  rw [show ((35 : ℚ) + -1 * 5) = 30 from by norm_num,
    show (min (95 : ℚ) 30) = 30 from by norm_num,
    show (max (5 : ℚ) 30) = 30 from by norm_num,
    if_neg hnc30,
    show ((35 : ℚ) + -1 * 10) = 25 from by norm_num,
    show (min (95 : ℚ) 25) = 25 from by norm_num,
    show (max (5 : ℚ) 25) = 25 from by norm_num,
    if_pos hc25]

theorem adj_blue : adjustColorToTargetLightness (ColorUtil.fromHsl 240 100 10) whiteColor 4.5 55
    = ColorUtil.fromHsl 240 100 55 := by
  have hc : (((4.5 : ℚ)) : ℝ) ≤ ColorUtil.contrastWith (ColorUtil.fromHsl 240 100 55) whiteColor := by
    rw [cast45]
    apply contrastWith_white_ge
    · rw [lum_blue55_eq]; linarith [lin_tenth_nonneg]
    · rw [lum_blue55_eq]; linarith [lin_tenth_le]
  unfold adjustColorToTargetLightness
  rw [fromHsl_hsl]
  dsimp only
  rw [if_pos hc]

theorem cx_stage1 : distributeColorsOptimally cxBase whiteColor 4.5 10
    = [ColorUtil.fromHsl 0 100 15, ColorUtil.fromHsl 120 100 25, ColorUtil.fromHsl 240 100 55] := by
  unfold distributeColorsOptimally
  rw [isLight_white]
  rw [show cxBase = [ColorUtil.fromHsl 0 100 10, ColorUtil.fromHsl 120 100 10,
    ColorUtil.fromHsl 240 100 10] from rfl]
  dsimp only
  rw [show getOptimalLightnessDistribution [ColorUtil.fromHsl 0 100 10,
    ColorUtil.fromHsl 120 100 10, ColorUtil.fromHsl 240 100 10].length true
    = [15, 35, 55] from rfl]
  simp only [jsMapIdx, jsMapIdxGo]
  rw [show (0 : ℕ) + 1 = 1 from rfl, show (1 : ℕ) + 1 = 2 from rfl]
  rw [show ([15, 35, 55] : List ℚ).getD 0 0 = 15 from rfl,
    show ([15, 35, 55] : List ℚ).getD 1 0 = 35 from rfl,
    show ([15, 35, 55] : List ℚ).getD 2 0 = 55 from rfl]
  rw [adj_red, adj_green, adj_blue]

theorem cx_satpairs : collectSatPairs
    [ColorUtil.fromHsl 0 100 15, ColorUtil.fromHsl 120 100 25, ColorUtil.fromHsl 240 100 55] 20
    = [(0, 1)] := by
  norm_num [collectSatPairs, ColorUtil.fromHsl, List.range_succ, List.getD,
    List.filterMap_cons, List.getElem?_cons_succ, List.getElem?_cons_zero]

theorem cx_stage2 : adjustSaturationForDifferentiation
    [ColorUtil.fromHsl 0 100 15, ColorUtil.fromHsl 120 100 25, ColorUtil.fromHsl 240 100 55] 20
    = [ColorUtil.fromHsl 0 100 15, ColorUtil.fromHsl 120 70 25, ColorUtil.fromHsl 240 100 55] := by
  rw [adjustSaturationForDifferentiation, cx_satpairs]
  norm_num [ColorUtil.fromHsl, List.getD, List.set,
    List.getElem?_cons_succ, List.getElem?_cons_zero]

theorem cx_huepairs : collectHuePairs
    [ColorUtil.fromHsl 0 100 15, ColorUtil.fromHsl 120 70 25, ColorUtil.fromHsl 240 100 55]
    = [] := by
  norm_num [collectHuePairs, ColorUtil.fromHsl, List.range_succ, List.getD,
    List.filterMap_cons, List.getElem?_cons_succ, List.getElem?_cons_zero,
    getCircularHueDistance, jsMod, jsTrunc]

theorem cx_diff : applySimpleDifferentiation HarmonyType.triadic cxBase whiteColor 4.5 ⟨true, 15, 10⟩
    = [ColorUtil.fromHsl 0 100 15, ColorUtil.fromHsl 120 70 25, ColorUtil.fromHsl 240 100 55] := by
  unfold applySimpleDifferentiation
  dsimp only
  rw [if_neg (by
    norm_num [cxBase, ColorUtil.fromHsl, List.all_cons, List.headD,
      getCircularHueDistance, jsMod, jsTrunc])]
  rw [show jsOr (10 : ℚ) 10 = 10 from rfl]
  rw [cx_stage1, cx_stage2, applyMinimalHueAdjustments, cx_huepairs]
  rfl

theorem adjustLightLoop_or (h s : ℚ) (bg : ColorUtil) (m tL dir : ℚ) (orig : ColorUtil) :
    ∀ ls : List ℚ, adjustLightLoop h s bg m tL dir orig ls = orig ∨
      (m : ℝ) ≤ ColorUtil.contrastWith (adjustLightLoop h s bg m tL dir orig ls) bg := by
  intro ls
  induction ls with
  | nil => left; rfl
  | cons a rest ih =>
    simp only [adjustLightLoop]
    split_ifs with hc
    · right; exact hc
    · exact ih

theorem adjustColorToTargetLightness_or (orig bg : ColorUtil) (m tL : ℚ) :
    adjustColorToTargetLightness orig bg m tL = orig ∨
      (m : ℝ) ≤ ColorUtil.contrastWith (adjustColorToTargetLightness orig bg m tL) bg := by
  unfold adjustColorToTargetLightness
  dsimp only
  split_ifs with hc
  · right; exact hc
  · exact adjustLightLoop_or _ _ _ _ _ _ _ _
  · exact adjustLightLoop_or _ _ _ _ _ _ _ _

theorem jsMapIdxGo_getD {α β : Type} (f : ℕ → α → β) (dA : α) (dB : β) :
    ∀ (l : List α) (k i : ℕ),
      (jsMapIdxGo f k l).getD i dB =
        if i < l.length then f (k + i) (l.getD i dA) else dB := by
  intro l
  induction l with
  | nil => intro k i; simp [jsMapIdxGo]
  | cons a as ih =>
    intro k i
    cases i with
    | zero => simp [jsMapIdxGo]
    | succ n =>
      simp only [jsMapIdxGo, List.getD_cons_succ, List.length_cons]
      rw [ih (k + 1) n, show k + 1 + n = k + (n + 1) from by omega]
      simp [Nat.add_lt_add_iff_right]

/-- Claim C1, counterexample.  For the optimizer-produced palette
`generateOptimizedPalette triadic cxBase whiteColor 4.5` (which the optimizer
returns unchanged because every slot already exceeds the AA target) and the
white background, running the three-stage differentiation pass strictly
lowers slot 0's contrast ratio against the background below the value it had
immediately after optimization: stage 1 moves slot 0 from lightness 10 to the
table lightness 15, which still meets 4.5 but is strictly less contrast than
before.  This refutes the claim that every slot's contrast after
differentiation is at least its post-optimization contrast. -/
theorem c1_counterexample :
    ColorUtil.contrastWith
        ((applySimpleDifferentiation HarmonyType.triadic
            (generateOptimizedPalette HarmonyType.triadic cxBase whiteColor 4.5)
            whiteColor 4.5 ⟨true, 15, 10⟩).getD 0 junkColor) whiteColor
      < ColorUtil.contrastWith
          ((generateOptimizedPalette HarmonyType.triadic cxBase whiteColor 4.5).getD 0 junkColor)
          whiteColor := by
  rw [cx_opt, cx_diff]
  rw [show ([ColorUtil.fromHsl 0 100 15, ColorUtil.fromHsl 120 70 25,
      ColorUtil.fromHsl 240 100 55].getD 0 junkColor) = ColorUtil.fromHsl 0 100 15 from rfl,
    show cxBase.getD 0 junkColor = ColorUtil.fromHsl 0 100 10 from rfl]
  have h15le : ColorUtil.getLuminance (ColorUtil.fromHsl 0 100 15) ≤ 1 := by
    rw [lum_red15_eq]; linarith [lin_three_tenths_le]
  have h10le : ColorUtil.getLuminance (ColorUtil.fromHsl 0 100 10) ≤ 1 := by
    rw [lum_red10_eq]; linarith [lin_fifth_le]
  have h10nn : 0 ≤ ColorUtil.getLuminance (ColorUtil.fromHsl 0 100 10) := by
    rw [lum_red10_eq]; linarith [lin_fifth_nonneg]
  have hlt : ColorUtil.getLuminance (ColorUtil.fromHsl 0 100 10)
      < ColorUtil.getLuminance (ColorUtil.fromHsl 0 100 15) := by
    rw [lum_red10_eq, lum_red15_eq]
    nlinarith [lin_fifth_lt_three_tenths]
  rw [contrastWith_white_eq _ h15le, contrastWith_white_eq _ h10le]
  exact (div_lt_div_left (by norm_num) (by linarith) (by linarith)).mpr (by linarith)

/-- Claim C1 (amended).  The lightness-redistribution stage of
differentiation either leaves a palette slot at its pre-stage color or
replaces it with a color whose contrast against the background is at least
`minContrast`; it does not preserve the contrast the slot had immediately
after optimization (stage 2 additionally adjusts saturation with no contrast
check at all), so the post-optimization contrast can strictly drop, as the
counterexample shows. -/
theorem c1_amended (palette : List ColorUtil) (bg : ColorUtil) (minContrast d : ℚ) (i : ℕ) :
    (distributeColorsOptimally palette bg minContrast d).getD i junkColor
        = palette.getD i junkColor
      ∨ (minContrast : ℝ) ≤ ColorUtil.contrastWith
          ((distributeColorsOptimally palette bg minContrast d).getD i junkColor) bg := by
  unfold distributeColorsOptimally
  dsimp only
  rw [jsMapIdx, jsMapIdxGo_getD _ junkColor junkColor]
  split_ifs with hi
  · simp only [Nat.zero_add]
    exact adjustColorToTargetLightness_or _ _ _ _
  · left
    exact (List.getD_eq_default _ _ (by omega)).symm

/-- Claim C3.  `generatePalette` is deterministic: the returned palettes do
not depend on the generator's only piece of mutable state (the
`this.harmonyType` field carried from an earlier call), because the method
overwrites that field from the settings before any use.  Hence two calls
with identical settings — in particular a call repeated from the state the
first call left behind — return structurally identical results, including
bit-identical hex strings at every position of base, lightOptimized and
darkOptimized. -/
theorem c3_determinism (g1 g2 : HarmonyType) (opts : GenerateOptions) :
    (generatePaletteRun g1 opts).1 = (generatePaletteRun g2 opts).1 := rfl

/-- Claim C4.  Whenever the current contrast of a color against the
background already reaches the target ratio, `optimizeColorForBackground`
returns the original color unchanged — including when the contrast exceeds
the band's upper bound (6.0 for a 4.5 target, 8.5 otherwise), since both
arms of the inner upper-bound test return the original color. -/
theorem c4_already_compliant (ht : HarmonyType) (orig bg : ColorUtil) (target : ℚ)
    (i n : ℕ) (h : (target : ℝ) ≤ ColorUtil.contrastWith orig bg) :
    optimizeColorForBackground ht orig bg target i n = orig := by
  unfold optimizeColorForBackground
  rw [if_pos h, ite_self]

/-- Witness for C4: black on white has contrast 21, far above the 4.5 target
(and above the 6.0 upper bound), and the optimizer returns it unchanged. -/
theorem c4_witness :
    (((4.5 : ℚ)) : ℝ) ≤ ColorUtil.contrastWith blackColor whiteColor ∧
      optimizeColorForBackground HarmonyType.triadic blackColor whiteColor 4.5 0 3 = blackColor := by
  have hc : (((4.5 : ℚ)) : ℝ) ≤ ColorUtil.contrastWith blackColor whiteColor := by
    rw [cast45]
    apply contrastWith_white_ge
    · rw [blackColor_luminance]
    · rw [blackColor_luminance]; norm_num
  exact ⟨hc, c4_already_compliant _ _ _ _ _ _ hc⟩

/-- Claim C7.  `validateSize` maps 3 to 3 and 5 to 5 and replaces every other
integer by 5; consequently `generatePalette` behaves identically for
`paletteSize` 4 and `paletteSize` 5, whatever the other settings are. -/
theorem c7_size_coercion (n : ℤ) (g : HarmonyType) (opts : GenerateOptions) :
    validateSize 3 = 3 ∧ validateSize 5 = 5 ∧
      (n ≠ 3 → n ≠ 5 → validateSize n = 5) ∧
      generatePaletteRun g { opts with paletteSize := some 4 }
        = generatePaletteRun g { opts with paletteSize := some 5 } := by
  refine ⟨rfl, rfl, ?_, ?_⟩
  · intro h3 h5
    unfold validateSize
    rw [if_neg (not_or.mpr ⟨h3, h5⟩)]
  · rfl

/-- Witness for C7: size 4 is neither 3 nor 5 and is coerced to 5. -/
theorem c7_witness : (4 : ℤ) ≠ 3 ∧ (4 : ℤ) ≠ 5 ∧ validateSize 4 = 5 := by
  refine ⟨by decide, by decide, ?_⟩
  exact (c7_size_coercion 4 HarmonyType.triadic defaultOpts).2.2.1 (by decide) (by decide)

theorem findOptimalScan_preserves (h s : ℚ) (bg : ColorUtil) (t u : ℚ) :
    ∀ (ls : List ℚ) (best : ColorUtil) (bc : ℝ),
      best.hsl.h = h → best.hsl.s = s →
      preservesHS h s (findOptimalScan h s bg t u ls best bc) := by
  intro ls
  induction ls with
  | nil => intro best bc h1 h2; exact ⟨h1, h2⟩
  | cons a rest ih =>
    intro best bc h1 h2
    simp only [findOptimalScan]
    split_ifs with hc1 hc2
    · exact ⟨rfl, rfl⟩
    · exact ih _ _ rfl rfl
    · exact ih _ _ h1 h2

theorem expandedLoop_preserves (h s : ℚ) (bg : ColorUtil) (t d : ℚ) :
    ∀ (n : ℕ) (tl : ℚ) (best : ColorUtil) (bc : ℝ),
      best.hsl.h = h → best.hsl.s = s →
      (expandedLoop h s bg t d n tl best bc).hsl.h = h ∧
        (expandedLoop h s bg t d n tl best bc).hsl.s = s := by
  intro n
  induction n with
  | zero => intro tl best bc h1 h2; exact ⟨h1, h2⟩
  | succ m ih =>
    intro tl best bc h1 h2
    simp only [expandedLoop]
    split_ifs with hb hc hd
    · exact ⟨h1, h2⟩
    · exact ⟨rfl, rfl⟩
    · exact ih _ _ _ rfl rfl
    · exact ih _ _ _ h1 h2

/-- Claim C5.  Every color returned by the optimizer's replacement search —
whether by the early return of the initial range scan, by the expanded
search, or as the tracked best candidate — carries exactly the original
color's hue and saturation; only the lightness component is changed, since
every candidate is built as `fromHsl(originalHsl.h, originalHsl.s, l)`. -/
theorem c5_frame (ht : HarmonyType) (orig bg : ColorUtil) (t u : ℚ) (i n : ℕ) :
    (findOptimalColor ht orig bg t u i n).hsl.h = orig.hsl.h ∧
      (findOptimalColor ht orig bg t u i n).hsl.s = orig.hsl.s := by
  unfold findOptimalColor
  dsimp only
  have hp := findOptimalScan_preserves orig.hsl.h orig.hsl.s bg t u
    (scanLightnessValues
      (getTargetLightnessRange (decide ((0.5 : ℝ) < ColorUtil.getLuminance bg)) i n ht).1
      (getTargetLightnessRange (decide ((0.5 : ℝ) < ColorUtil.getLuminance bg)) i n ht).2)
    orig (ColorUtil.contrastWith orig bg) rfl rfl
  cases hfa : findOptimalScan orig.hsl.h orig.hsl.s bg t u
      (scanLightnessValues
        (getTargetLightnessRange (decide ((0.5 : ℝ) < ColorUtil.getLuminance bg)) i n ht).1
        (getTargetLightnessRange (decide ((0.5 : ℝ) < ColorUtil.getLuminance bg)) i n ht).2)
      orig (ColorUtil.contrastWith orig bg) with
  | error c =>
    rw [hfa] at hp
    exact hp
  | ok p =>
    obtain ⟨b, bc⟩ := p
    rw [hfa] at hp
    obtain ⟨hb1, hb2⟩ := hp
    unfold expandedColorSearch
    dsimp only
    exact expandedLoop_preserves _ _ _ _ _ _ _ _ _ hb1 hb2

/-- Claim C9.  `getContrastRatio` is symmetric in its two colors, and for
colors whose RGB channels lie in [0,255] (so that WCAG luminance lies in
[0,1]) the returned value always lies in the range [1, 21]. -/
theorem c9_contrast_symm_range (a b : ColorUtil) :
    ColorUtil.contrastWith a b = ColorUtil.contrastWith b a ∧
      (validRgb a → validRgb b →
        1 ≤ ColorUtil.contrastWith a b ∧ ColorUtil.contrastWith a b ≤ 21) := by
  constructor
  · simp only [ColorUtil.contrastWith]
    rw [max_comm, min_comm]
  · intro ha hb
    have la0 := getLuminance_nonneg a ha
    have la1 := getLuminance_le_one a ha
    have lb0 := getLuminance_nonneg b hb
    have lb1 := getLuminance_le_one b hb
    have hmin : (0 : ℝ) ≤ min (ColorUtil.getLuminance a) (ColorUtil.getLuminance b) :=
      le_min la0 lb0
    have hmax1 : max (ColorUtil.getLuminance a) (ColorUtil.getLuminance b) ≤ 1 :=
      max_le la1 lb1
    have hmm : min (ColorUtil.getLuminance a) (ColorUtil.getLuminance b)
        ≤ max (ColorUtil.getLuminance a) (ColorUtil.getLuminance b) := min_le_max
    simp only [ColorUtil.contrastWith]
    constructor
    · rw [le_div_iff (by linarith)]
      linarith
    · rw [div_le_iff (by linarith)]
      linarith

/-- Witness for C9 at black and white: symmetry and the range bounds hold. -/
theorem c9_witness :
    ColorUtil.contrastWith blackColor whiteColor = ColorUtil.contrastWith whiteColor blackColor ∧
      1 ≤ ColorUtil.contrastWith blackColor whiteColor ∧
      ColorUtil.contrastWith blackColor whiteColor ≤ 21 := by
  have h := c9_contrast_symm_range blackColor whiteColor
  have hr := h.2 (by norm_num [validRgb, blackColor]) (by norm_num [validRgb, whiteColor])
  exact ⟨h.1, hr.1, hr.2⟩

/-- Claim C10.  For every string argument that does not start with `#`, the
`ColorUtil` constructor returns normally but assigns none of the hex, rgb,
hsl fields; the failure only surfaces when `generateBaseColors` later
dereferences `color.hsl.h` outside its try/catch, which raises `TypeError`
for every harmony type and every requested size. -/
theorem c10_silent_constructor (s : String) (h : jsStartsWithHash s = false) :
    mkColorUtil s = .ok none ∧
      ∀ (ht : HarmonyType) (n : ℕ), generateBaseColorsE s ht n = .error .typeError := by
  have hmk : mkColorUtil s = .ok none := by
    unfold mkColorUtil
    rw [h, if_neg Bool.false_ne_true]
  refine ⟨hmk, fun ht n => ?_⟩
  unfold generateBaseColorsE
  rw [hmk]

/-- Witness for C10 with the well-formed-but-unprefixed string "5500AA". -/
theorem c10_witness : jsStartsWithHash "5500AA" = false ∧ mkColorUtil "5500AA" = .ok none ∧
    generateBaseColorsE "5500AA" HarmonyType.triadic 3 = .error .typeError := by
  have h : jsStartsWithHash "5500AA" = false := by decide
  have hc := c10_silent_constructor "5500AA" h
  exact ⟨h, hc.1, hc.2 HarmonyType.triadic 3⟩

/-- Claim C2 evaluated at the failing input.  For the malformed hex string
"#GGGGGG" the try/catch in `generateBaseColors` does substitute the default
base color, but slot 0 of the palette loop reconstructs `new
ColorUtil(baseColor)` outside the try/catch, which throws `TypeError` again,
so `generatePalette` propagates the error instead of completing. -/
theorem c2_failing :
    (generatePaletteRun HarmonyType.triadic
      { defaultOpts with baseColor := some "#GGGGGG" }).1 = .error .typeError := by
  unfold generatePaletteRun
  dsimp only [defaultOpts, Option.getD]
  rw [show generateBaseColorsE "#GGGGGG" HarmonyType.triadic (validateSize 5).toNat
    = Except.error JsError.typeError from by decide]

theorem mapME_congr (f g : ℕ → Except JsError ColorUtil) :
    ∀ l : List ℕ, (∀ x ∈ l, f x = g x) → mapME f l = mapME g l := by
  intro l
  induction l with
  | nil => intro _; rfl
  | cons a rest ih =>
    intro hfg
    simp only [mapME]
    rw [hfg a (by simp), ih (fun x hx => hfg x (by simp [hx]))]

theorem mapME_ok (gfun : ℕ → ColorUtil) :
    ∀ l : List ℕ, mapME (fun i => .ok (gfun i)) l = .ok (l.map gfun) := by
  intro l
  induction l with
  | nil => rfl
  | cons a rest ih =>
    simp only [mapME, List.map_cons]
    rw [ih]

theorem validateSize_toNat_pos (z : ℤ) : 0 < (validateSize z).toNat := by
  unfold validateSize
  split_ifs with h
  · rcases h with rfl | rfl <;> decide
  · decide

theorem generateBaseColorsE_ok (ht : HarmonyType) (s : String) (rgbv : Rgb)
    (hs : jsStartsWithHash s = true) (hp : hexToRgb s = some rgbv) (n : ℕ) (hn : 0 < n) :
    ∃ rest, generateBaseColorsE s ht n =
      .ok (({ hex := s, rgb := rgbv, hsl := rgbToHsl rgbv.r rgbv.g rgbv.b } : ColorUtil) :: rest) := by
  have hmk : mkColorUtil s
      = .ok (some { hex := s, rgb := rgbv, hsl := rgbToHsl rgbv.r rgbv.g rgbv.b }) := by
    unfold mkColorUtil
    rw [hs, if_pos rfl, hp]
  unfold generateBaseColorsE
  rw [hmk]
  dsimp only
  obtain ⟨m, rfl⟩ : ∃ m, n = m + 1 := ⟨n - 1, by omega⟩
  rw [List.range_succ_eq_map]
  simp only [mapME, reduceIte]
  rw [mapME_congr _
    (fun i => .ok (generateColorFromHarmony
      { hex := s, rgb := rgbv, hsl := rgbToHsl rgbv.r rgbv.g rgbv.b }
      (colorHarmonies ht (rgbToHsl rgbv.r rgbv.g rgbv.b).h) ht i (m + 1)))
    (List.map Nat.succ (List.range m))
    (by
      intro x hx
      obtain ⟨y, _, rfl⟩ := List.mem_map.mp hx
      rw [if_neg (Nat.succ_ne_zero y)]),
    mapME_ok]
  exact ⟨_, rfl⟩

/-- Claim C8.  For every settings object whose baseColor is a parsable hex
string (leading `#` plus six hex digits), generation succeeds and slot 0 of
the base palette is exactly the parsed base color: the hex field is the
input string verbatim and the hsl is the standard conversion of the decoded
RGB, with no harmony table or clamp applied. -/
theorem c8_base_fidelity (g : HarmonyType) (opts : GenerateOptions) (s : String) (rgbv : Rgb)
    (hbc : opts.baseColor = some s) (hs : jsStartsWithHash s = true)
    (hp : hexToRgb s = some rgbv) :
    Except.map (fun res => res.base.headD junkColor) (generatePaletteRun g opts).1
        = .ok ({ hex := s, rgb := rgbv, hsl := rgbToHsl rgbv.r rgbv.g rgbv.b } : ColorUtil) ∧
      Except.map (fun res => (res.base.headD junkColor).hex) (generatePaletteRun g opts).1
        = .ok s := by
  unfold generatePaletteRun
  dsimp only
  rw [hbc, Option.getD_some]
  obtain ⟨rest, hok⟩ := generateBaseColorsE_ok (opts.harmonyType.getD HarmonyType.triadic)
    s rgbv hs hp _ (validateSize_toNat_pos (opts.paletteSize.getD 5))
  rw [hok]
  exact ⟨rfl, rfl⟩

/-- Witness for C8: generating from "#5500AA" puts exactly that color (hex
string included) at slot 0 of the base palette. -/
theorem c8_witness :
    Except.map (fun res => res.base.headD junkColor)
        (generatePaletteRun HarmonyType.triadic
          { defaultOpts with baseColor := some "#5500AA" }).1
      = .ok ({ hex := "#5500AA", rgb := ⟨85, 0, 170⟩, hsl := rgbToHsl 85 0 170 } : ColorUtil) ∧
      Except.map (fun res => (res.base.headD junkColor).hex)
          (generatePaletteRun HarmonyType.triadic
            { defaultOpts with baseColor := some "#5500AA" }).1
        = .ok "#5500AA" :=
  c8_base_fidelity HarmonyType.triadic _ "#5500AA" ⟨85, 0, 170⟩ rfl (by decide) (by decide)

/-- Claim C6.  When every color's hue is within 5 degrees (circular
distance) of the first color's hue, differentiation takes the dedicated
monochromatic routine: slot i is replaced by a color whose hue is the first
color's hue plus 5 degrees times i (mod 360), whose saturation is the
maximum of 40 and the slot's prior saturation, and whose lightness comes
from the fixed ladder [15,50,85] for size 3 and [10,30,50,70,90] otherwise,
inverted as 100 - l on a dark background; afterwards `ensureMinimumContrast`
re-optimizes any slot still below the minimum with upper bound
`minContrast * 1.5`. -/
theorem c6_monochromatic_path (ht : HarmonyType) (p : List ColorUtil) (bg : ColorUtil)
    (m : ℚ) (ds : DifferentiationSettings)
    (hmono : p.all (fun c =>
      decide (getCircularHueDistance c.hsl.h ((p.headD junkColor).hsl.h) < 5)) = true) :
    applySimpleDifferentiation ht p bg m ds =
      ensureMinimumContrast ht
        (jsMapIdx (fun i c =>
          ColorUtil.fromHsl (jsMod ((p.headD junkColor).hsl.h + (i : ℚ) * 5) 360)
            (max 40 c.hsl.s)
            (if decide ((0.5 : ℝ) < ColorUtil.getLuminance bg) then
              (if p.length = 3 then ([15, 50, 85] : List ℚ) else [10, 30, 50, 70, 90]).getD i 0
             else 100 -
              (if p.length = 3 then ([15, 50, 85] : List ℚ) else [10, 30, 50, 70, 90]).getD i 0))
          p)
        bg m := by
  unfold applySimpleDifferentiation
  dsimp only
  rw [if_pos hmono]
  rfl

/-- Witness for C6 on a concrete nearly-monochromatic palette (hues 100,
102, 104) against the white background at the AA ratio. -/
theorem c6_witness :
    (monoPalette.all (fun c =>
      decide (getCircularHueDistance c.hsl.h ((monoPalette.headD junkColor).hsl.h) < 5)) = true) ∧
    applySimpleDifferentiation HarmonyType.triadic monoPalette whiteColor 4.5 ⟨true, 15, 10⟩ =
      ensureMinimumContrast HarmonyType.triadic
        (jsMapIdx (fun i c =>
          ColorUtil.fromHsl (jsMod ((monoPalette.headD junkColor).hsl.h + (i : ℚ) * 5) 360)
            (max 40 c.hsl.s)
            (if decide ((0.5 : ℝ) < ColorUtil.getLuminance whiteColor) then
              (if monoPalette.length = 3 then ([15, 50, 85] : List ℚ)
               else [10, 30, 50, 70, 90]).getD i 0
             else 100 -
              (if monoPalette.length = 3 then ([15, 50, 85] : List ℚ)
               else [10, 30, 50, 70, 90]).getD i 0))
          monoPalette)
        whiteColor 4.5 := by
  have hm : monoPalette.all (fun c =>
      decide (getCircularHueDistance c.hsl.h ((monoPalette.headD junkColor).hsl.h) < 5)) = true := by
    norm_num [monoPalette, ColorUtil.fromHsl, List.all_cons, List.headD,
      getCircularHueDistance, jsMod, jsTrunc]
  exact ⟨hm, c6_monochromatic_path _ _ _ _ _ hm⟩
